import Mathlib

/-!
Verification of the combat, status-effect, equipment, quest and persistence
logic of the `pagina-servicios` text RPG (sources `rpg_texto.py` and
`text_rpg.py`).

The Python code is shallowly embedded: dataclasses become structures, Python
dicts (which preserve insertion order) become association lists over `String`
keys, mutation becomes explicit state passing, and the random rolls that feed
the combat math (`random.randint(-2, 2)` and the critical-hit test
`random.random() < CRITICO`) become explicit parameters so that theorems can
quantify over all possible rolls.  Machine integers are `Int` (Python ints
are unbounded, so no wrap-around modelling is needed).  The JSON framing of
the save file is an external collaborator: a saved document is modelled as
the structured record the code writes, and a loaded document as a record
whose sub-records may individually be malformed (a malformed sub-record is
exactly one whose dataclass reconstruction `Cls(**dict)` raises).
-/

namespace RPG

/-- Constant `VERSION = 1` in `rpg_texto.py`: schema version of the save file. -/
def VERSION : Int := 1

/-! ### Association-list helpers

Python `dict`s with string keys (inventories, status effects, reward tables)
are modelled as insertion-ordered association lists.  `alGetD` is
`d.get(k, default)`, `alSet` is `d[k] = v` (update in place if the key
exists, append otherwise, exactly like a Python dict). -/

/-- Python `m.get(k, d)` on a Python dict modelled as an association list. -/
def alGetD (m : List (String × Int)) (k : String) (d : Int) : Int :=
  match m with
  | [] => d
  | (k', v) :: rest => if k' = k then v else alGetD rest k d

/-- Python `m[k] = v` on a Python dict modelled as an association list. -/
def alSet (m : List (String × Int)) (k : String) (v : Int) : List (String × Int) :=
  match m with
  | [] => [(k, v)]
  | (k', v') :: rest => if k' = k then (k, v) :: rest else (k', v') :: alSet rest k v

/-! ### Data model (`rpg_texto.py` dataclasses)

`Objeto.efecto` is a heterogeneous Python dict; the fields the code ever
reads (`vida`, `estado`, `ataque`, `defensa`, `slot`) are modelled as
optional fields, with `Option.getD` playing the role of
`dict.get(key, default)`. -/

/-- The effect payload of an `Objeto` (`efecto : Dict[str, Any]`). -/
structure Efecto where
  vida : Option Int := none
  estado : Option String := none
  ataque : Option Int := none
  defensa : Option Int := none
  slot : Option String := none
deriving DecidableEq

/-- Dataclass `Objeto`. -/
structure Objeto where
  id : String
  nombre : String
  tipo : String
  efecto : Efecto
  precio : Int
  descripcion : String
deriving DecidableEq

/-- Dataclass `Enemigo`.  The `Jefe` subclass only adds narrative string
lists (`presentaciones`, `burlas_derrota`) that never enter the combat math,
so it is not modelled separately.  Note the dataclass has a gold reward
(`oro`) but no xp-reward field. -/
structure Enemigo where
  id : String
  nombre : String
  nivel : Int
  vida_max : Int
  vida : Int
  ataque : Int
  defensa : Int
  botin : List String
  oro : Int
  personalidad : List String
  estados : List (String × Int) := []
deriving DecidableEq

/-- Method `Enemigo.esta_vivo`: `return self.vida > 0`. -/
def Enemigo.esta_vivo (e : Enemigo) : Bool := e.vida > 0

/-- Dataclass `Sala`. -/
structure Sala where
  id : String
  nombre : String
  descripcion : String
  conexiones : List (String × String)
  objetos : List String := []
  npcs : List (String × String) := []
  enemigos : List String := []
  santuario : Bool := false
deriving DecidableEq

/-- Dataclass `Mision`.  `recompensa` is a Python dict read with
`recompensa.get("oro", 0)`. -/
structure Mision where
  id : String
  tipo : String
  objetivo : String
  cantidad : Int
  recompensa : List (String × Int)
  descripcion : String
  progreso : Int := 0
  completada : Bool := false
deriving DecidableEq

/-- Dataclass `Jugador`.  `equipo` is the ordered dict
`{"arma": None, "armadura": None, "accesorio": None}`. -/
structure Jugador where
  nombre : String
  nivel : Int := 1
  xp : Int := 0
  vida_max : Int := 30
  vida : Int := 30
  mana_max : Int := 10
  mana : Int := 10
  oro : Int := 0
  ataque : Int := 5
  defensa : Int := 2
  inventario : List (String × Int) := []
  estados : List (String × Int) := []
  equipo : List (String × Option String) :=
    [("arma", none), ("armadura", none), ("accesorio", none)]
  sala : String := "pueblo"
deriving DecidableEq

/-- Method `Jugador.esta_vivo`: `return self.vida > 0`. -/
def Jugador.esta_vivo (j : Jugador) : Bool := j.vida > 0

/-- Method `Jugador.modificar_vida`:
`self.vida = max(0, min(self.vida_max, self.vida + cantidad))`.
Returns the new `vida`. -/
def modificar_vida (vida_max vida cantidad : Int) : Int :=
  max 0 (min vida_max (vida + cantidad))

/-! ### Damage formulas -/

/-- Function `calcular_dano` from `rpg_texto.py`:

    variacion = random.randint(-2, 2)
    dano = max(1, atq + variacion - defe)
    if random.random() < CRITICO:
        dano = int(dano * 1.5)

The two random draws are the explicit parameters `variacion` and `critico`.
`int(dano * 1.5)` truncates toward zero; since `dano ≥ 1` it equals the
floor `dano * 3 / 2`. -/
def calcular_dano (atq defe : Int) (variacion : Int) (critico : Bool) : Int :=
  let dano := max 1 (atq + variacion - defe)
  if critico then dano * 3 / 2 else dano

/-- The damage roll inlined in `combat` in `text_rpg.py` (both directions):
`max(0, attacker.attack + random.randint(-2, 2) - defender.defense)`. -/
def text_rpg_dano (attack defense : Int) (variacion : Int) : Int :=
  max 0 (attack + variacion - defense)

/-! ### Status-effect engine

`Juego.aplicar_estados` iterates over the entity's `estados` dict (insertion
order); for each entry `(e, t)`:

    if e == "veneno":      obj.vida -= 3
    elif e == "quemadura": obj.vida -= 2
    elif e == "sangrado":  obj.vida -= t; obj.estados[e] = t + 1
    obj.estados[e] = obj.estados.get(e, 0) - 1
    if obj.estados[e] <= 0: quitar.append(e)

and finally deletes the keys collected in `quitar`.  Each key is visited
once with its current value, so the loop is a single pass; the function
below returns the new `vida` and the surviving `estados` entries.  The hp
write is a raw subtraction (no call to `modificar_vida`): nothing clamps
here. -/
def aplicar_estados : Int → List (String × Int) → Int × List (String × Int)
  | vida, [] => (vida, [])
  | vida, (e, t) :: rest =>
    let vida' :=
      if e = "veneno" then vida - 3
      else if e = "quemadura" then vida - 2
      else if e = "sangrado" then vida - t
      else vida
    let t' := (if e = "sangrado" then t + 1 else t) - 1
    let resto := aplicar_estados vida' rest
    if t' ≤ 0 then resto else (resto.1, (e, t') :: resto.2)

/-- Total per-tick damage dealt by one pass of `aplicar_estados` over a
given `estados` dict: 3 per poison, 2 per burn, the stored counter per
bleed. -/
def dano_total : List (String × Int) → Int
  | [] => 0
  | (e, t) :: rest =>
    (if e = "veneno" then 3
     else if e = "quemadura" then 2
     else if e = "sangrado" then t
     else 0) + dano_total rest

/-- The damage one tick of a single effect of kind `e` with counter `t`
deals. -/
def dano_por_tick (e : String) (t : Int) : Int :=
  if e = "veneno" then 3
  else if e = "quemadura" then 2
  else if e = "sangrado" then t
  else 0

/-- Iterate `aplicar_estados` (one combat-round tick per application). -/
def nTicks : Nat → Int × List (String × Int) → Int × List (String × Int)
  | 0, s => s
  | n + 1, s => nTicks n (aplicar_estados s.1 s.2)

/-! ### Quest tracker (`Juego.actualizar_misiones`) -/

/-- The body of the `for` loop of `actualizar_misiones` for one quest:

    if m.tipo == tipo and m.objetivo == objetivo and not m.completada:
        m.progreso += 1
        if m.progreso >= m.cantidad:
            m.completada = True
            self.jugador.oro += m.recompensa.get("oro", 0)

Returns the updated quest and the updated player gold. -/
def actualizar_mision (tipo objetivo : String) (m : Mision) (oro : Int) : Mision × Int :=
  if m.tipo = tipo ∧ m.objetivo = objetivo ∧ m.completada = false then
    let m1 : Mision := { m with progreso := m.progreso + 1 }
    if m1.progreso ≥ m1.cantidad then
      ({ m1 with completada := true }, oro + alGetD m.recompensa "oro" 0)
    else (m1, oro)
  else (m, oro)

/-- Method `Juego.actualizar_misiones(tipo, objetivo)`: fold the loop body over
`self.misiones.values()` (insertion order), threading the player's gold. -/
def actualizar_misiones (tipo objetivo : String) :
    List (String × Mision) → Int → List (String × Mision) × Int
  | [], oro => ([], oro)
  | (mid, m) :: ms, oro =>
    let paso := actualizar_mision tipo objetivo m oro
    let resto := actualizar_misiones tipo objetivo ms paso.2
    ((mid, paso.1) :: resto.1, resto.2)

/-! ### Combat resolver (`Juego.cmd_atacar`, `Juego.victoria`)

`Juego` below is the slice of class `Juego` that the combat commands read
and write: the player, the current encounter (`enemigo_actual`), the current
room's live enemy list (`sala_actual.enemigos`), the quest dict and the
`running` flag.  The enemy template catalog (`enemigos_template`) is the
function parameter `plantillas`; `clonar_enemigo` copies a template by
value, which is exactly what using the (immutable) template value means
here. -/

structure Juego where
  jugador : Jugador
  enemigo_actual : Option Enemigo := none
  sala_enemigos : List String := []
  misiones : List (String × Mision) := []
  running : Bool := true
deriving DecidableEq

/-- Method `Juego.victoria(enemigo)`:

    self.jugador.oro += enemigo.oro
    for item in enemigo.botin:
        self.jugador.inventario[item] = self.jugador.inventario.get(item, 0) + 1
    self.actualizar_misiones("derrotar", enemigo.id)
    if isinstance(enemigo, Jefe): print(random.choice(enemigo.burlas_derrota))
    if enemigo.id in sala.enemigos: sala.enemigos.remove(enemigo.id)
    self.enemigo_actual = None

(`list.remove` drops the first occurrence, which is `List.erase`; the boss
taunt is narrative-only). -/
def victoria (enemigo : Enemigo) (g : Juego) : Juego :=
  let j := g.jugador
  let j := { j with
    oro := j.oro + enemigo.oro,
    inventario := enemigo.botin.foldl
      (fun inv item => alSet inv item (alGetD inv item 0 + 1)) j.inventario }
  let paso := actualizar_misiones "derrotar" enemigo.id g.misiones j.oro
  { g with
    jugador := { j with oro := paso.2 },
    misiones := paso.1,
    sala_enemigos := g.sala_enemigos.erase enemigo.id,
    enemigo_actual := none }

/-- The random draws one execution of `cmd_atacar` can consume: the player's
damage roll and the enemy's damage roll (each a `randint(-2, 2)` variance
plus a critical-hit test). -/
structure Rolls where
  variacion_j : Int
  critico_j : Bool
  variacion_e : Int
  critico_e : Bool
deriving DecidableEq

/-- Method `Juego.cmd_atacar(args)`, for `args` empty (`none`) or a single target
name.  Mirrors the source line by line:

* if `enemigo_actual` exists and is alive, the encounter continues with it
  (args ignored); otherwise a target named in `args` that is present in the
  room's enemy list is cloned from the template catalog and becomes
  `enemigo_actual` (no args, or an absent target, returns with no state
  change — the dead `enemigo_actual`, if any, stays in place);
* player turn: `calcular_dano`, subtract from the enemy's hp; if the enemy
  is no longer alive, resolve through `victoria` and return;
* otherwise the enemy's status effects tick, the enemy attacks through
  `modificar_vida`, a player-death check may clear `running`, and finally
  the player's status effects tick. -/
def cmd_atacar (plantillas : String → Enemigo) (args : Option String) (r : Rolls)
    (g : Juego) : Juego :=
  let desde_args : Option Enemigo :=
    match args with
    | none => none
    | some nombre =>
      if nombre ∈ g.sala_enemigos then some (plantillas nombre) else none
  let engaged : Option Enemigo :=
    match g.enemigo_actual with
    | some e => if e.esta_vivo then some e else desde_args
    | none => desde_args
  match engaged with
  | none => g
  | some enemigo =>
    let dano := calcular_dano g.jugador.ataque enemigo.defensa r.variacion_j r.critico_j
    let enemigo := { enemigo with vida := enemigo.vida - dano }
    if enemigo.esta_vivo = false then
      victoria enemigo g
    else
      let tickE := aplicar_estados enemigo.vida enemigo.estados
      let enemigo := { enemigo with vida := tickE.1, estados := tickE.2 }
      let dano_e := calcular_dano enemigo.ataque g.jugador.defensa r.variacion_e r.critico_e
      let j := { g.jugador with
        vida := modificar_vida g.jugador.vida_max g.jugador.vida (-dano_e) }
      if j.esta_vivo = false then
        { g with jugador := j, enemigo_actual := some enemigo, running := false }
      else
        let tickJ := aplicar_estados j.vida j.estados
        { g with
          jugador := { j with vida := tickJ.1, estados := tickJ.2 },
          enemigo_actual := some enemigo }

/-! ### Equipment resolver (`Juego.recalcular_equipo`) -/

/-- One step of the `for obj_id in self.jugador.equipo.values()` loop:
`if not obj_id: continue` skips the Python falsy values `None` and `""`;
otherwise the item's `efecto.get("ataque", 0)` and `efecto.get("defensa", 0)`
are added. -/
def bono_paso (objetos : String → Objeto) (ad : Int × Int) (par : String × Option String) :
    Int × Int :=
  match par.2 with
  | none => ad
  | some oid =>
    if oid = "" then ad
    else (ad.1 + ((objetos oid).efecto.ataque.getD 0),
          ad.2 + ((objetos oid).efecto.defensa.getD 0))

/-- Method `Juego.recalcular_equipo`:

    self.jugador.ataque = 5
    self.jugador.defensa = 2
    for obj_id in self.jugador.equipo.values():
        if not obj_id: continue
        efecto = self.objetos[obj_id].efecto
        self.jugador.ataque += efecto.get("ataque", 0)
        self.jugador.defensa += efecto.get("defensa", 0)

The item catalog `self.objetos` is the function parameter `objetos`. -/
def recalcular_equipo (objetos : String → Objeto) (j : Jugador) : Jugador :=
  let acc := j.equipo.foldl (bono_paso objetos) (5, 2)
  { j with ataque := acc.1, defensa := acc.2 }

/-- The total stat bonus (attack, defense) of the items in the non-empty
slots of an equip dict — the quantity the spec says `recalcular_equipo`
adds to the base values. -/
def suma_bonos (objetos : String → Objeto) : List (String × Option String) → Int × Int
  | [] => (0, 0)
  | (_, none) :: rest => suma_bonos objetos rest
  | (_, some oid) :: rest =>
    let s := suma_bonos objetos rest
    if oid = "" then s
    else ((objetos oid).efecto.ataque.getD 0 + s.1,
          (objetos oid).efecto.defensa.getD 0 + s.2)

/-! ### Persistence (`Juego.cmd_guardar`, `Juego.cmd_cargar`)

`Partida` is the slice of class `Juego` that the save file covers: the
player, the room dict and the quest dict — exactly the keys `"jugador"`,
`"salas"` and `"misiones"` that `cmd_guardar` writes next to `"version"`.

A document read back from disk (`RawDoc`) carries, for each record, either a
well-formed value (`Raw.ok`: the dict round-trips through
`Cls(**asdict(...))`) or `Raw.malformed` (the keyword expansion raises, e.g.
a missing or unexpected field).  `LoadFile` adds the two failure modes that
`cmd_cargar` handles before reaching the document: a missing file and a
`json.load` failure. -/

inductive Raw (α : Type) where
  | ok (a : α)
  | malformed
deriving DecidableEq

/-- The persisted slice of the game state. -/
structure Partida where
  jugador : Jugador
  salas : List (String × Sala)
  misiones : List (String × Mision)
deriving DecidableEq

/-- A parsed save document as `cmd_cargar` sees it after `json.load`. -/
structure RawDoc where
  version : Option Int
  jugador : Raw Jugador
  salas : List (String × Raw Sala)
  misiones : List (String × Raw Mision)
deriving DecidableEq

/-- What the load command finds on disk. -/
inductive LoadFile where
  | ausente
  | corrupto
  | doc (d : RawDoc)
deriving DecidableEq

/-- Outcome of `cmd_cargar`: a locally handled error (message printed,
accompanying state returned unchanged), an exception escaping the command
(with the state at the moment it is raised), or a successful load. -/
inductive CargarResult where
  | rechazado (msg : String) (g : Partida)
  | excepcion (g : Partida)
  | cargado (g : Partida)
deriving DecidableEq

/-- Reconstruct one record: `Cls(**dict)` either yields a value or raises. -/
def decodeRaw {α : Type} : Raw α → Option α
  | .ok a => some a
  | .malformed => none

/-- Reconstruct a dict of records, as the comprehensions
`{sid: Sala(**s) for ...}` and `{mid: Mision(**m) for ...}` do: the whole
comprehension yields a value only if every entry does. -/
def decodeRawList {α : Type} : List (String × Raw α) → Option (List (String × α))
  | [] => some []
  | (k, r) :: rest =>
    match decodeRaw r with
    | none => none
    | some a =>
      match decodeRawList rest with
      | none => none
      | some tl => some ((k, a) :: tl)

/-- Method `Juego.cmd_guardar`: writes `{"version": VERSION, "jugador": asdict(...),
"salas": {...}, "misiones": {...}}` — a full snapshot whose records are all
well-formed. -/
def cmd_guardar (g : Partida) : RawDoc :=
  { version := some VERSION,
    jugador := .ok g.jugador,
    salas := g.salas.map (fun par => (par.1, .ok par.2)),
    misiones := g.misiones.map (fun par => (par.1, .ok par.2)) }

/-- Method `Juego.cmd_cargar`:

    if not os.path.exists(SAVE_FILE): print("No hay partida guardada."); return
    try: datos = json.load(f)
    except Exception: print("Archivo corrupto."); return
    if datos.get("version") != VERSION: print("Versión incompatible."); return
    self.jugador = Jugador(**datos["jugador"])
    self.salas = {sid: Sala(**s) for sid, s in datos["salas"].items()}
    self.misiones = {mid: Mision(**m) for mid, m in datos["misiones"].items()}

Only the `json.load` is guarded: a record that fails to reconstruct raises
out of the command, and every assignment made before the raise survives
(first the player, then the rooms, then the quests). -/
def cmd_cargar (file : LoadFile) (g : Partida) : CargarResult :=
  match file with
  | .ausente => .rechazado "No hay partida guardada." g
  | .corrupto => .rechazado "Archivo corrupto." g
  | .doc d =>
    if d.version ≠ some VERSION then .rechazado "Versión incompatible." g
    else
      match decodeRaw d.jugador with
      | none => .excepcion g
      | some j =>
        let g1 := { g with jugador := j }
        match decodeRawList d.salas with
        | none => .excepcion g1
        | some ss =>
          let g2 := { g1 with salas := ss }
          match decodeRawList d.misiones with
          | none => .excepcion g2
          | some ms => .cargado { g2 with misiones := ms }

/-! ### Concrete game data used by counterexamples and witnesses

`goblinSemilla` and `misionCazador` copy the entries of the `SEED` constant;
the remaining values are legal game data (`Juego.__init__` builds the
catalogs from an arbitrary `datos` dict, which may give an enemy initial
status effects). -/

/-- The `"goblin"` entry of `SEED["enemigos"]`. -/
def goblinSemilla : Enemigo :=
  { id := "goblin", nombre := "goblin", nivel := 1, vida_max := 12, vida := 12,
    ataque := 4, defensa := 1, botin := ["pocion"], oro := 5,
    personalidad := ["grita cosas feas"] }

/-- The `"cazador"` entry of `SEED["misiones"]`. -/
def misionCazador : Mision :=
  { id := "cazador", tipo := "derrotar", objetivo := "goblin", cantidad := 1,
    recompensa := [("oro", 15)], descripcion := "Derrota a un goblin molesto." }

/-- Quest `misionCazador` after it has been completed once. -/
def misionCazadorCompleta : Mision :=
  { misionCazador with progreso := 1, completada := true }

/-- A fresh game holding the goblin room and the goblin quest. -/
def juegoInicial : Juego :=
  { jugador := { nombre := "heroe" }, sala_enemigos := ["goblin"],
    misiones := [("cazador", misionCazador)] }

/-- An enemy template that starts an encounter already poisoned: hp 4, two
turns of `veneno`. -/
def enemigoVeneno : Enemigo :=
  { id := "g", nombre := "g", nivel := 1, vida_max := 4, vida := 4, ataque := 3,
    defensa := 0, botin := [], oro := 5, personalidad := [],
    estados := [("veneno", 2)] }

/-- A template catalog containing only `enemigoVeneno`. -/
def plantillasVeneno : String → Enemigo := fun _ => enemigoVeneno

/-- A game about to fight `enemigoVeneno`; the player's defense 10 keeps the
arithmetic small. -/
def juegoVeneno : Juego :=
  { jugador := { nombre := "heroe", defensa := 10 }, sala_enemigos := ["g"] }

/-- Fixed rolls: variance −2, no critical hits, for both directions. -/
def rollsMin : Rolls := ⟨-2, false, -2, false⟩

/-- The combat round in which `enemigoVeneno` survives the player's direct
attack (hp 4 → 1) and then dies to its poison tick (hp 1 → −2). -/
def pasoUno : Juego := cmd_atacar plantillasVeneno (some "g") rollsMin juegoVeneno

/-- The player's next attack command after `pasoUno`. -/
def pasoDos : Juego := cmd_atacar plantillasVeneno (some "g") rollsMin pasoUno

/-- A game already engaged with `enemigoVeneno` (alive, at full hp). -/
def juegoEnCombate : Juego :=
  { jugador := { nombre := "heroe", defensa := 10 }, sala_enemigos := ["g"],
    enemigo_actual := some enemigoVeneno }

/-- State of `enemigoVeneno` right after `pasoUno`: it survived the direct attack
(hp 1) and then its poison tick left it at −2 hp with one poison turn
remaining. -/
def enemigoMuerto : Enemigo :=
  { enemigoVeneno with vida := -2, estados := [("veneno", 1)] }

/-- A prior in-memory state for the load counterexample. -/
def partidaBase : Partida :=
  { jugador := { nombre := "viejo" }, salas := [], misiones := [] }

/-- A save document with the right version and a well-formed player record
but a malformed room record. -/
def docParcial : RawDoc :=
  { version := some 1, jugador := .ok { nombre := "nuevo" },
    salas := [("pueblo", .malformed)], misiones := [] }

/-! ## Theorems -/

theorem alGetD_alSet (m : List (String × Int)) (k q : String) (v d : Int) :
    alGetD (alSet m k v) q d = if k = q then v else alGetD m q d := by
  induction m with
  | nil =>
    by_cases h : k = q <;> simp [alSet, alGetD, h]
  | cons hd tl ih =>
    obtain ⟨k', v'⟩ := hd
    by_cases h1 : k' = k
    · subst h1
      by_cases h2 : k' = q <;> simp [alSet, alGetD, h2]
    · by_cases h2 : k' = q
      · subst h2
        have hne : ¬ k = k' := fun hk => h1 hk.symm
        simp [alSet, alGetD, h1, hne]
      · simp [alSet, alGetD, h1, h2, ih]

theorem aplicar_estados_vida (vida : Int) (estados : List (String × Int)) :
    (aplicar_estados vida estados).1 = vida - dano_total estados := by
  induction estados generalizing vida with
  | nil => simp [aplicar_estados, dano_total]
  | cons hd tl ih =>
    obtain ⟨e, t⟩ := hd
    simp only [aplicar_estados, dano_total]
    split_ifs <;> simp_all <;> ring

theorem dano_por_tick_no_sangrado (e : String) (he : ¬ e = "sangrado") (t : Int) :
    dano_por_tick e t = dano_por_tick e 0 := by
  unfold dano_por_tick
  split_ifs <;> simp_all

theorem sangrado_tick (v t : Int) (ht : 1 ≤ t) :
    aplicar_estados v [("sangrado", t)] = (v - t, [("sangrado", t)]) := by
  have h1 : ¬ (t ≤ 0) := by omega
  simp [aplicar_estados, h1]

theorem nTicks_sangrado (n : Nat) (v t : Int) (ht : 1 ≤ t) :
    nTicks n (v, [("sangrado", t)]) = (v - (n : Int) * t, [("sangrado", t)]) := by
  induction n generalizing v with
  | zero => simp [nTicks]
  | succ k ih =>
    have e1 : nTicks (k + 1) (v, [("sangrado", t)])
        = nTicks k (aplicar_estados v [("sangrado", t)]) := rfl
    rw [e1, sangrado_tick v t ht, ih (v - t)]
    have e2 : v - t - (k : Int) * t = v - ((k + 1 : Nat) : Int) * t := by push_cast; ring
    rw [e2]

theorem no_sangrado_tick (e : String) (he : ¬ e = "sangrado") (v t : Int) :
    aplicar_estados v [(e, t)] =
      (v - dano_por_tick e t, if t - 1 ≤ 0 then [] else [(e, t - 1)]) := by
  by_cases h1 : e = "veneno"
  · subst h1; simp [aplicar_estados, dano_por_tick]; split_ifs <;> simp
  · by_cases h2 : e = "quemadura"
    · subst h2; simp [aplicar_estados, dano_por_tick, h1]; split_ifs <;> simp
    · simp [aplicar_estados, dano_por_tick, h1, h2, he]; split_ifs <;> simp

theorem nTicks_counter (e : String) (he : ¬ e = "sangrado") :
    ∀ (k : Nat) (t v : Int), (k : Int) < t →
      nTicks k (v, [(e, t)]) = (v - (k : Int) * dano_por_tick e 0, [(e, t - (k : Int))]) := by
  intro k
  induction k with
  | zero => intro t v h; simp [nTicks]
  | succ j ih =>
    intro t v h
    have hj : ((j + 1 : Nat) : Int) = (j : Int) + 1 := by push_cast; ring
    rw [hj] at h
    have e1 : nTicks (j + 1) (v, [(e, t)]) = nTicks j (aplicar_estados v [(e, t)]) := rfl
    have h2 : ¬ (t - 1 ≤ 0) := by omega
    rw [e1, no_sangrado_tick e he v t, if_neg h2,
      ih (t - 1) (v - dano_por_tick e t) (by omega),
      dano_por_tick_no_sangrado e he t]
    simp only [Prod.mk.injEq, List.cons.injEq, true_and, and_true]
    constructor
    · push_cast; ring
    · push_cast; ring

theorem nTicks_add (a b : Nat) (s : Int × List (String × Int)) :
    nTicks (a + b) s = nTicks b (nTicks a s) := by
  induction a generalizing s with
  | zero => simp [nTicks]
  | succ j ih =>
    have h : j + 1 + b = (j + b) + 1 := by omega
    rw [h]
    show nTicks (j + b) (aplicar_estados s.1 s.2) = nTicks b (nTicks (j + 1) s)
    rw [show nTicks (j + 1) s = nTicks j (aplicar_estados s.1 s.2) from rfl]
    exact ih _

theorem nTicks_removed (e : String) (he : ¬ e = "sangrado") (n : Nat) (hn : 1 ≤ n) (v : Int) :
    (nTicks n (v, [(e, (n : Int))])).2 = [] := by
  obtain ⟨m, rfl⟩ : ∃ m, n = m + 1 := ⟨n - 1, by omega⟩
  have hc : ((m + 1 : Nat) : Int) = (m : Int) + 1 := by push_cast; ring
  rw [nTicks_add m 1, hc, nTicks_counter e he m ((m : Int) + 1) v (by omega)]
  have hc2 : (m : Int) + 1 - (m : Int) = 1 := by ring
  rw [hc2]
  show (aplicar_estados (v - (m : Int) * dano_por_tick e 0) [(e, 1)]).2 = []
  rw [no_sangrado_tick e he _ 1]
  norm_num

/-- C1: the claim says every damage roll of the combat damage routine, in
either direction, is at least 1.  This fails for `combat` in `text_rpg.py`,
which clamps at 0: the in-game wolf (attack 4) hitting the default player
(defense 2) with variance −2 (a legal `randint(-2, 2)` draw) deals 0
damage. -/
theorem claim1_counterexample :
    text_rpg_dano 4 2 (-2) = 0 ∧ (-2 : Int) ≥ -2 ∧ (-2 : Int) ≤ 2 ∧
    ¬ 1 ≤ text_rpg_dano 4 2 (-2) := by decide

/-- C1 (amended): `calcular_dano` in `rpg_texto.py` returns at least 1 for
every variance and critical roll; the damage rolls of `combat` in
`text_rpg.py` are clamped at 0 instead, and can be 0. -/
theorem claim1_theorem (atq defe attack defense variacion : Int) (critico : Bool) :
    1 ≤ calcular_dano atq defe variacion critico ∧
    0 ≤ text_rpg_dano attack defense variacion := by
  constructor
  · simp only [calcular_dano]
    have h : (1 : Int) ≤ max 1 (atq + variacion - defe) := le_max_left _ _
    generalize hmax : max 1 (atq + variacion - defe) = d at h
    by_cases hc : critico
    · simp only [hc, if_true]
      omega
    · simpa [hc] using h
  · exact le_max_left _ _

/-- C2: the claim says hp never goes negative after a status-effect tick.
It fails: `aplicar_estados` subtracts damage from `vida` directly instead
of going through `modificar_vida`, so an entity at 1 hp with an active
poison ends the tick at −2 hp. -/
theorem claim2_counterexample :
    (aplicar_estados 1 [("veneno", 2)]).1 = -2 ∧
    (aplicar_estados 1 [("veneno", 2)]).1 < 0 := by decide

/-- C2 (amended): one tick of `aplicar_estados` subtracts exactly the total
per-effect damage from hp with no clamping, so hp can become negative;
clamping into `[0, vida_max]` happens only in `Jugador.modificar_vida`,
which the tick routine does not call. -/
theorem claim2_theorem (vida_max vida cantidad : Int) (estados : List (String × Int)) :
    (aplicar_estados vida estados).1 = vida - dano_total estados ∧
    0 ≤ modificar_vida vida_max vida cantidad :=
  ⟨aplicar_estados_vida vida estados, le_max_left 0 _⟩

/-- C5: the claim says every effect kind's counter decrements by 1 per tick
and the effect is removed after exactly its configured number of ticks.
This fails for bleed: `aplicar_estados` first sets the bleed counter to
`t + 1` and then the shared decrement brings it back to `t`, so a bleed
counter of 2 is still 2 after a tick (and the effect is never removed). -/
theorem claim5_counterexample :
    (aplicar_estados 100 [("sangrado", 2)]).2 = [("sangrado", 2)] ∧
    ¬ (aplicar_estados 100 [("sangrado", 2)]).2 = [("sangrado", 2 - 1)] := by decide

/-- C5 (amended): every effect kind except bleed decrements by 1 per tick
(and is dropped when the counter falls to 0 or below): an effect configured
for `n ≥ 1` ticks still has counter `n − k` after `k < n` ticks and is
removed after exactly `n` ticks.  A bleed with counter `t ≥ 1`, however,
keeps counter `t` forever and is never removed. -/
theorem claim5_theorem (e : String) (he : e ≠ "sangrado") (n : Nat) (hn : 1 ≤ n)
    (v t : Int) (ht : 1 ≤ t) :
    ((aplicar_estados v [(e, t)]).2 = if t - 1 ≤ 0 then [] else [(e, t - 1)]) ∧
    (∀ k : Nat, k < n →
      (nTicks k (v, [(e, (n : Int))])).2 = [(e, (n : Int) - (k : Int))]) ∧
    ((nTicks n (v, [(e, (n : Int))])).2 = []) ∧
    (∀ m : Nat, (nTicks m (v, [("sangrado", t)])).2 = [("sangrado", t)]) := by
  refine ⟨?_, ?_, nTicks_removed e he n hn v, ?_⟩
  · rw [no_sangrado_tick e he v t]
  · intro k hk
    rw [nTicks_counter e he k (n : Int) v (by exact_mod_cast hk)]
  · intro m
    rw [nTicks_sangrado m v t ht]

theorem claim5_witness :
    ((aplicar_estados 100 [("veneno", 5)]).2 = [("veneno", 4)]) ∧
    ((nTicks 2 (100, [("veneno", 2)])).2 = []) ∧
    ((nTicks 3 (100, [("sangrado", 5)])).2 = [("sangrado", 5)]) := by
  have h := claim5_theorem "veneno" (by decide) 2 (by decide) 100 5 (by decide)
  refine ⟨?_, h.2.2.1, h.2.2.2 3⟩
  rw [h.1]
  norm_num

/-- C6: the claim says bleed damage grows by 1 on each successive tick.  It
does not: the bleed counter (which is also the damage dealt) is unchanged
across ticks, so a bleed with counter 2 deals 2 on the first tick and again
2 — not 3 — on the second. -/
theorem claim6_counterexample :
    (nTicks 1 (100, [("sangrado", 2)])).1 = 98 ∧
    (nTicks 2 (100, [("sangrado", 2)])).1 = 96 ∧
    ¬ (100 - (nTicks 1 (100, [("sangrado", 2)])).1) + 1
        = (nTicks 1 (100, [("sangrado", 2)])).1 - (nTicks 2 (100, [("sangrado", 2)])).1 := by
  decide

/-- C6 (amended): per tick, poison deals exactly 3 hp and burn exactly 2 hp
(not a 2–3 range), and a bleed with counter `t ≥ 1` deals exactly `t` on
every tick — constant, it never increases: after `n` ticks the entity has
lost `n * t` hp and the counter is still `t`. -/
theorem claim6_theorem (v t : Int) (ht : 1 ≤ t) (n : Nat) :
    ((aplicar_estados v [("veneno", t)]).1 = v - 3) ∧
    ((aplicar_estados v [("quemadura", t)]).1 = v - 2) ∧
    (nTicks n (v, [("sangrado", t)]) = (v - (n : Int) * t, [("sangrado", t)])) := by
  refine ⟨?_, ?_, nTicks_sangrado n v t ht⟩
  · rw [aplicar_estados_vida]; simp [dano_total]
  · rw [aplicar_estados_vida]; simp [dano_total]

theorem claim6_witness :
    ((aplicar_estados 50 [("veneno", 4)]).1 = 47) ∧
    ((aplicar_estados 50 [("quemadura", 4)]).1 = 48) ∧
    (nTicks 2 (100, [("sangrado", 2)]) = (96, [("sangrado", 2)])) := by
  have h := claim6_theorem 50 4 (by decide) 2
  have h2 := claim6_theorem 100 2 (by decide) 2
  refine ⟨?_, ?_, ?_⟩
  · rw [h.1]; norm_num
  · rw [h.2.1]; norm_num
  · rw [h2.2.2]; norm_num

theorem actualizar_misiones_inerte (tipo objetivo : String) (ms : List (String × Mision))
    (oro : Int)
    (h : ∀ mid m, (mid, m) ∈ ms → m.tipo = tipo → m.objetivo = objetivo →
      m.completada = true) :
    actualizar_misiones tipo objetivo ms oro = (ms, oro) := by
  induction ms generalizing oro with
  | nil => simp [actualizar_misiones]
  | cons hd tl ih =>
    obtain ⟨mid, m⟩ := hd
    have hstep : actualizar_mision tipo objetivo m oro = (m, oro) := by
      unfold actualizar_mision
      rw [if_neg]
      rintro ⟨h1, h2, h3⟩
      have hc := h mid m (by simp) h1 h2
      rw [hc] at h3
      exact Bool.noConfusion h3
    simp only [actualizar_misiones, hstep]
    rw [ih oro (fun mid' m' hmem => h mid' m' (by simp [hmem]))]

/-- C3: for every quest, the tracker increments progress by 1 exactly for
matching, not-yet-completed quests; completion is marked and the gold reward
granted exactly when the incremented progress reaches the required count;
and once every matching quest is completed, a further matching event changes
neither the quests nor the player's gold. -/
theorem claim3_theorem (tipo objetivo : String) (m : Mision) (oro : Int) :
    (m.completada = true → actualizar_mision tipo objetivo m oro = (m, oro)) ∧
    (¬ (m.tipo = tipo ∧ m.objetivo = objetivo) →
      actualizar_mision tipo objetivo m oro = (m, oro)) ∧
    (m.completada = false → m.tipo = tipo → m.objetivo = objetivo →
      (actualizar_mision tipo objetivo m oro).1.progreso = m.progreso + 1 ∧
      ((actualizar_mision tipo objetivo m oro).1.completada = true ↔
        m.progreso + 1 ≥ m.cantidad) ∧
      ((actualizar_mision tipo objetivo m oro).2 =
        if m.progreso + 1 ≥ m.cantidad then oro + alGetD m.recompensa "oro" 0 else oro)) ∧
    (∀ (ms : List (String × Mision)) (oro' : Int),
      (∀ mid m', (mid, m') ∈ ms → m'.tipo = tipo → m'.objetivo = objetivo →
        m'.completada = true) →
      actualizar_misiones tipo objetivo ms oro' = (ms, oro')) := by
  refine ⟨?_, ?_, ?_, fun ms oro' h => actualizar_misiones_inerte tipo objetivo ms oro' h⟩
  · intro hc
    unfold actualizar_mision
    rw [if_neg]
    rintro ⟨-, -, h3⟩
    rw [hc] at h3
    exact Bool.noConfusion h3
  · intro hnm
    unfold actualizar_mision
    rw [if_neg]
    rintro ⟨h1, h2, -⟩
    exact hnm ⟨h1, h2⟩
  · intro hc h1 h2
    unfold actualizar_mision
    rw [if_pos ⟨h1, h2, hc⟩]
    by_cases hg : m.progreso + 1 ≥ m.cantidad
    · simp [hg]
    · simp [hg, hc]

theorem claim3_witness :
    actualizar_mision "derrotar" "goblin" misionCazadorCompleta 20
      = (misionCazadorCompleta, 20) ∧
    (actualizar_mision "derrotar" "goblin" misionCazador 0).1.progreso = 1 ∧
    (actualizar_mision "derrotar" "goblin" misionCazador 0).2 = 15 ∧
    actualizar_misiones "derrotar" "goblin" [("cazador", misionCazadorCompleta)] 20
      = ([("cazador", misionCazadorCompleta)], 20) := by
  have h := claim3_theorem "derrotar" "goblin" misionCazadorCompleta 20
  have h2 := claim3_theorem "derrotar" "goblin" misionCazador 0
  have hmem : ∀ mid m', (mid, m') ∈ [("cazador", misionCazadorCompleta)] →
      m'.tipo = "derrotar" → m'.objetivo = "goblin" → m'.completada = true := by
    intro mid m' hm _ _
    simp only [List.mem_singleton, Prod.mk.injEq] at hm
    rw [hm.2]
    rfl
  refine ⟨h.1 rfl, ?_, ?_, h.2.2.2 [("cazador", misionCazadorCompleta)] 20 hmem⟩
  · exact (h2.2.2.1 rfl rfl rfl).1
  · have h3 := (h2.2.2.1 rfl rfl rfl).2.2
    rw [h3]
    decide

theorem botin_foldl_count (botin : List String) (inv : List (String × Int)) (it : String) :
    alGetD (botin.foldl (fun inv item => alSet inv item (alGetD inv item 0 + 1)) inv) it 0
      = alGetD inv it 0 + (botin.count it : Int) := by
  induction botin generalizing inv with
  | nil => simp
  | cons b bs ih =>
    simp only [List.foldl_cons]
    rw [ih, alGetD_alSet]
    simp only [List.count_cons]
    by_cases hb : b = it
    · subst hb; simp; ring
    · have hb2 : ¬ (it == b) = true := by simpa using fun he => hb he.symm
      simp [hb, hb2]

/-- C4: the claim says victory grants both an xp reward and a gold reward.
The code grants no xp: `Enemigo` has no xp-reward field and `victoria` never
touches `jugador.xp` — defeating the seeded goblin leaves xp at 0 while gold
rises (5 from the goblin plus the 15 of the completed goblin quest). -/
theorem claim4_counterexample :
    juegoInicial.jugador.xp = 0 ∧
    (victoria goblinSemilla juegoInicial).jugador.xp = 0 ∧
    (victoria goblinSemilla juegoInicial).jugador.oro = 20 := by decide

/-- C4 (amended): the victory handler grants the enemy's gold reward and
then the rewards of any quests the defeat event completes (there is no xp
reward: player xp is unchanged), raises the inventory count of each loot
item by its multiplicity in the loot list, removes the first occurrence of
the enemy's id from the room's enemy list, clears the current encounter, and
advances the `"derrotar"` quests for the enemy's id. -/
theorem claim4_theorem (enemigo : Enemigo) (g : Juego) :
    (victoria enemigo g).jugador.xp = g.jugador.xp ∧
    (∀ it : String,
      alGetD (victoria enemigo g).jugador.inventario it 0
        = alGetD g.jugador.inventario it 0 + (enemigo.botin.count it : Int)) ∧
    (victoria enemigo g).sala_enemigos = g.sala_enemigos.erase enemigo.id ∧
    (victoria enemigo g).enemigo_actual = none ∧
    ((victoria enemigo g).misiones, (victoria enemigo g).jugador.oro)
      = actualizar_misiones "derrotar" enemigo.id g.misiones
          (g.jugador.oro + enemigo.oro) := by
  refine ⟨rfl, ?_, rfl, rfl, rfl⟩
  intro it
  exact botin_foldl_count enemigo.botin g.jugador.inventario it

theorem foldl_bono_paso (objetos : String → Objeto) (equipo : List (String × Option String))
    (a d : Int) :
    equipo.foldl (bono_paso objetos) (a, d)
      = (a + (suma_bonos objetos equipo).1, d + (suma_bonos objetos equipo).2) := by
  induction equipo generalizing a d with
  | nil => simp [suma_bonos]
  | cons hd tl ih =>
    obtain ⟨slot, oid⟩ := hd
    cases oid with
    | none => simpa [bono_paso, suma_bonos] using ih a d
    | some o =>
      by_cases ho : o = ""
      · simpa [bono_paso, suma_bonos, ho] using ih a d
      · simp only [List.foldl_cons, bono_paso, suma_bonos, if_neg ho]
        rw [ih]
        simp only [Prod.mk.injEq]
        constructor <;> ring

/-- C7: after `recalcular_equipo`, attack and defense equal the hard-coded
base values (5 and 2) plus the summed bonuses of the items in non-empty
equip slots; the routine is idempotent, and its output does not depend on
the player's current attack/defense (no hidden accumulator), so no bonus is
ever counted twice. -/
theorem claim7_theorem (objetos : String → Objeto) (j : Jugador) :
    (recalcular_equipo objetos j).ataque = 5 + (suma_bonos objetos j.equipo).1 ∧
    (recalcular_equipo objetos j).defensa = 2 + (suma_bonos objetos j.equipo).2 ∧
    recalcular_equipo objetos (recalcular_equipo objetos j) = recalcular_equipo objetos j ∧
    (∀ a d : Int, recalcular_equipo objetos { j with ataque := a, defensa := d }
      = recalcular_equipo objetos j) := by
  refine ⟨?_, ?_, rfl, fun a d => rfl⟩
  · show (j.equipo.foldl (bono_paso objetos) (5, 2)).1 = _
    rw [foldl_bono_paso]
  · show (j.equipo.foldl (bono_paso objetos) (5, 2)).2 = _
    rw [foldl_bono_paso]

theorem decodeRawList_map_ok {a : Type} (xs : List (String × a)) :
    decodeRawList (xs.map (fun par => (par.1, Raw.ok par.2))) = some xs := by
  induction xs with
  | nil => rfl
  | cons hd tl ih => simp [decodeRawList, decodeRaw, ih]

/-- C8: saving and then loading reproduces the player record, the per-room
state and the quest records exactly, whatever the prior in-memory state at
load time was. -/
theorem claim8_theorem (g anterior : Partida) :
    cmd_cargar (.doc (cmd_guardar g)) anterior = .cargado g := by
  unfold cmd_cargar cmd_guardar
  simp [decodeRaw, decodeRawList_map_ok]

/-- C9: the claim says load is all-or-nothing on every parse or schema
error.  It is not: with a well-formed player record but a malformed room
record, `self.jugador` has already been replaced when the rooms
comprehension raises, so the exception escapes with the player updated and
the rooms and quests still old. -/
theorem claim9_counterexample :
    cmd_cargar (.doc docParcial) partidaBase
      = .excepcion { partidaBase with jugador := { nombre := "nuevo" } } ∧
    ¬ ({ nombre := "nuevo" } : Jugador) = partidaBase.jugador := by decide

/-- C9 (amended): the three guarded failure modes — missing file, JSON
parse failure, version mismatch — report an error and leave the state
untouched, and a fully well-formed document replaces the whole state; but a
malformed record raises an uncaught exception, and every assignment made
before the raise survives: a malformed player leaves the state untouched
(yet unreported), malformed rooms leave the new player in place, and
malformed quests leave the new player and new rooms in place. -/
theorem claim9_theorem (g : Partida) (d : RawDoc) (j : Jugador)
    (ss : List (String × Sala)) (ms : List (String × Mision)) :
    (cmd_cargar .ausente g = .rechazado "No hay partida guardada." g) ∧
    (cmd_cargar .corrupto g = .rechazado "Archivo corrupto." g) ∧
    (d.version ≠ some VERSION →
      cmd_cargar (.doc d) g = .rechazado "Versión incompatible." g) ∧
    (d.version = some VERSION → d.jugador = .malformed →
      cmd_cargar (.doc d) g = .excepcion g) ∧
    (d.version = some VERSION → d.jugador = .ok j → decodeRawList d.salas = none →
      cmd_cargar (.doc d) g = .excepcion { g with jugador := j }) ∧
    (d.version = some VERSION → d.jugador = .ok j → decodeRawList d.salas = some ss →
      decodeRawList d.misiones = none →
      cmd_cargar (.doc d) g = .excepcion { g with jugador := j, salas := ss }) ∧
    (d.version = some VERSION → d.jugador = .ok j → decodeRawList d.salas = some ss →
      decodeRawList d.misiones = some ms →
      cmd_cargar (.doc d) g = .cargado { jugador := j, salas := ss, misiones := ms }) := by
  refine ⟨rfl, rfl, ?_, ?_, ?_, ?_, ?_⟩
  · intro h
    simp [cmd_cargar, h]
  · intro hv hj
    simp [cmd_cargar, hv, hj, decodeRaw]
  · intro hv hj hs
    simp [cmd_cargar, hv, hj, hs, decodeRaw]
  · intro hv hj hs hm
    simp [cmd_cargar, hv, hj, hs, hm, decodeRaw]
  · intro hv hj hs hm
    simp [cmd_cargar, hv, hj, hs, hm, decodeRaw]

theorem claim9_witness :
    (cmd_cargar .ausente partidaBase
      = .rechazado "No hay partida guardada." partidaBase) ∧
    (cmd_cargar (.doc docParcial) partidaBase
      = .excepcion { partidaBase with jugador := { nombre := "nuevo" } }) ∧
    (cmd_cargar (.doc (cmd_guardar partidaBase)) partidaBase = .cargado partidaBase) := by
  have h := claim9_theorem partidaBase docParcial { nombre := "nuevo" } [] []
  have h2 := claim9_theorem partidaBase (cmd_guardar partidaBase) partidaBase.jugador
    partidaBase.salas partidaBase.misiones
  exact ⟨h.1, h.2.2.2.2.1 rfl rfl rfl, h2.2.2.2.2.2.2 rfl rfl rfl rfl⟩

/-- C10: the claim says a status-tick-killed enemy still attacks that round
(true) and that Victory then comes after the player's next direct attack.
The second half fails: in `pasoUno` the enemy survives the direct attack
(hp 4 → 1), dies to its poison tick (hp 1 → −2), still hits the player
(hp 30 → 29) and no victory fires (gold 0, "g" still in the room).  But the
next attack command finds `enemigo_actual` dead, so it does not resolve the
encounter: it engages a brand-new full-health clone (which again ends the
round at −2 hp after the same rolls) and the dead enemy's victory — its
gold, its removal from the room — never happens. -/
theorem claim10_counterexample :
    pasoUno.jugador.vida = 29 ∧
    pasoUno.enemigo_actual = some enemigoMuerto ∧
    pasoUno.jugador.oro = 0 ∧
    pasoUno.sala_enemigos = ["g"] ∧
    pasoDos.jugador.vida = 28 ∧
    pasoDos.jugador.oro = 0 ∧
    pasoDos.sala_enemigos = ["g"] ∧
    pasoDos.enemigo_actual = some enemigoMuerto := by decide

/-- C10 (amended): death is only checked right after the player's direct
attack.  (i) In a round where the enemy survives that attack, the rest of
the round runs unconditionally — its status effects tick, it retaliates,
the player's effects tick — and no victory occurs even when the tick leaves
the enemy at hp ≤ 0: gold, room and quests are unchanged and the dead enemy
stays as the current encounter.  (ii) With a dead current enemy, an attack
command without a target changes nothing, and (iii) one with a present
target behaves exactly as if there were no current encounter: it engages a
fresh clone of the template, so Victory for the tick-killed instance never
fires. -/
theorem claim10_theorem (plantillas : String → Enemigo) (r : Rolls) :
    (∀ (g : Juego) (e : Enemigo) (args : Option String) (dano : Int) (e2 : Enemigo)
        (v1 : Int),
      g.enemigo_actual = some e →
      e.esta_vivo = true →
      dano = calcular_dano g.jugador.ataque e.defensa r.variacion_j r.critico_j →
      0 < e.vida - dano →
      e2 = { e with vida := (aplicar_estados (e.vida - dano) e.estados).1,
                    estados := (aplicar_estados (e.vida - dano) e.estados).2 } →
      v1 = modificar_vida g.jugador.vida_max g.jugador.vida
            (-(calcular_dano e2.ataque g.jugador.defensa r.variacion_e r.critico_e)) →
      ((cmd_atacar plantillas args r g).jugador.oro = g.jugador.oro ∧
       (cmd_atacar plantillas args r g).sala_enemigos = g.sala_enemigos ∧
       (cmd_atacar plantillas args r g).misiones = g.misiones ∧
       (cmd_atacar plantillas args r g).enemigo_actual = some e2 ∧
       (0 < v1 → (cmd_atacar plantillas args r g).jugador.vida
          = (aplicar_estados v1 g.jugador.estados).1) ∧
       (v1 ≤ 0 → (cmd_atacar plantillas args r g).jugador.vida = v1 ∧
          (cmd_atacar plantillas args r g).running = false))) ∧
    (∀ (g : Juego) (e : Enemigo),
      g.enemigo_actual = some e → e.esta_vivo = false →
      cmd_atacar plantillas none r g = g) ∧
    (∀ (g : Juego) (e : Enemigo) (nombre : String),
      g.enemigo_actual = some e → e.esta_vivo = false → nombre ∈ g.sala_enemigos →
      cmd_atacar plantillas (some nombre) r g
        = cmd_atacar plantillas (some nombre) r { g with enemigo_actual := none }) := by
  refine ⟨?_, ?_, ?_⟩
  · intro g e args dano e2 v1 hcur halive hdano hsurv he2 hv1
    obtain ⟨gj, gea, gsala, gmis, grun⟩ := g
    dsimp only at hcur hdano hv1 ⊢
    subst hcur
    simp only [he2] at hv1
    try dsimp only at hv1
    have hnd : ¬ (Enemigo.esta_vivo { e with vida := e.vida - dano } = false) := by
      simp [Enemigo.esta_vivo]
      omega
    unfold cmd_atacar
    dsimp only
    rw [if_pos halive]
    dsimp only
    rw [← hdano, if_neg hnd, ← he2, ← hv1]
    by_cases hp : 0 < v1
    · have hj : ¬ (Jugador.esta_vivo { gj with vida := v1 } = false) := by
        simp [Jugador.esta_vivo]
        omega
      rw [if_neg hj]
      exact ⟨rfl, rfl, rfl, rfl, fun _ => rfl, fun hle => absurd hp (by omega)⟩
    · have hj : Jugador.esta_vivo { gj with vida := v1 } = false := by
        simp [Jugador.esta_vivo]
        omega
      rw [if_pos hj]
      exact ⟨rfl, rfl, rfl, rfl, fun hgt => absurd hgt hp, fun _ => ⟨rfl, rfl⟩⟩
  · intro g e hcur hdead
    obtain ⟨gj, gea, gsala, gmis, grun⟩ := g
    dsimp only at hcur ⊢
    subst hcur
    have hne : ¬ (e.esta_vivo = true) := by simp [hdead]
    unfold cmd_atacar
    dsimp only
    rw [if_neg hne]
  · intro g e nombre hcur hdead hmem
    obtain ⟨gj, gea, gsala, gmis, grun⟩ := g
    dsimp only at hcur hmem ⊢
    subst hcur
    have hne : ¬ (e.esta_vivo = true) := by simp [hdead]
    unfold cmd_atacar
    dsimp only
    rw [if_neg hne, if_pos hmem]
    rfl

theorem claim10_witness :
    ((cmd_atacar plantillasVeneno none rollsMin juegoEnCombate).jugador.oro
        = juegoEnCombate.jugador.oro ∧
      (cmd_atacar plantillasVeneno none rollsMin juegoEnCombate).enemigo_actual
        = some enemigoMuerto ∧
      (cmd_atacar plantillasVeneno none rollsMin juegoEnCombate).jugador.vida
        = (aplicar_estados 29 juegoEnCombate.jugador.estados).1) ∧
    cmd_atacar plantillasVeneno none rollsMin pasoUno = pasoUno ∧
    cmd_atacar plantillasVeneno (some "g") rollsMin pasoUno
      = cmd_atacar plantillasVeneno (some "g") rollsMin
          { pasoUno with enemigo_actual := none } := by
  have h := claim10_theorem plantillasVeneno rollsMin
  have h1 := h.1 juegoEnCombate enemigoVeneno none 3 enemigoMuerto 29 rfl (by decide)
    (by decide) (by decide) (by decide) (by decide)
  have hdos : pasoUno.enemigo_actual = some enemigoMuerto := by decide
  have hdead : enemigoMuerto.esta_vivo = false := by decide
  exact ⟨⟨h1.1, h1.2.2.2.1, h1.2.2.2.2.1 (by decide)⟩,
    h.2.1 pasoUno enemigoMuerto hdos hdead,
    h.2.2 pasoUno enemigoMuerto "g" hdos hdead (by decide)⟩

end RPG
